import Mathlib

/-!
# NAT-PMP backend of go-nat: shallow embedding of `natpmp.go`

The session type `natpmpNAT` keeps the Go field names (`gateway`, `extport`,
`port`).  The protocol client `n.c` is an external collaborator: it is
represented by a gateway behaviour (an answer to each mapping request, which may
depend on everything exchanged before) together with a `World` that records the
exchanges in order.  `randomPort` lives outside `natpmp.go`; it is taken as a
parameter `rand`, the stream of candidates, and the `World` counts the draws.
Go `int` and `time.Duration` are unbounded `Int` here: the only arithmetic is one
truncating division.
-/

namespace NatPMP

/-- An IP address, as the byte slice `net.IP`. -/
abbrev IP := List Nat

/-- Go `error` values; `Option Err` is a Go `error`, `none` being `nil`. -/
abbrev Err := String

/-- The arguments of one `natpmp.Client.AddPortMapping` call. -/
structure Request where
  protocol : String
  internalPort : Int
  externalPort : Int
  lifetime : Int
deriving DecidableEq, Repr

/-- One round trip with the gateway: the request and the error it returned. -/
structure Exchange where
  req : Request
  resp : Option Err
deriving DecidableEq, Repr

/-- A gateway behaviour: the error returned for a request, given all earlier exchanges. -/
abbrev Gateway := List Exchange → Request → Option Err

/-- Everything outside the session: the exchanges so far and the number of random draws. -/
structure World where
  log : List Exchange
  draws : Nat
deriving DecidableEq, Repr

/-- The session `natpmpNAT` (the client handle `c` is the gateway behaviour and the world). -/
structure natpmpNAT where
  gateway : IP
  extport : Int
  port : Int
deriving DecidableEq, Repr

/-- The call `n.c.AddPortMapping(protocol, internalPort, externalPort, lifetime)`. -/
def clientAddPortMapping (gw : Gateway) (w : World) (r : Request) : Option Err × World :=
  let e := gw w.log r
  (e, { w with log := w.log ++ [⟨r, e⟩] })

/-- The call `randomPort()`: the next candidate of the stream. -/
def randomPort (rand : Nat → Int) (w : World) : Int × World :=
  (rand w.draws, { w with draws := w.draws + 1 })

/-- What `AddPortMapping` returns, with the session and the world after the call. -/
structure AddResult where
  port : Int
  err : Option Err
  n : natpmpNAT
  w : World
deriving DecidableEq, Repr

/-- The loop `for i := 0; i < 3; i++` of `AddPortMapping` with `k` iterations left,
followed by `return 0, err`. -/
def addLoop (gw : Gateway) (rand : Nat → Int) (protocol : String) (timeoutInSeconds : Int) :
    Nat → natpmpNAT → World → Option Err → AddResult
  | 0, n, w, err => ⟨0, err, n, w⟩
  | k + 1, n, w, _ =>
    let d := randomPort rand w
    let externalPort := d.1
    let c := clientAddPortMapping gw d.2 ⟨protocol, n.port, externalPort, timeoutInSeconds⟩
    match c.1 with
    | none => ⟨externalPort, none, { n with extport := externalPort }, c.2⟩
    | some e => addLoop gw rand protocol timeoutInSeconds k n c.2 (some e)

/-- The method `natpmpNAT.AddPortMapping`; `timeout` is a `time.Duration` in nanoseconds. -/
def AddPortMapping (gw : Gateway) (rand : Nat → Int) (n : natpmpNAT) (w : World)
    (protocol : String) (internalPort : Int) (_description : String) (timeout : Int) :
    AddResult :=
  let timeoutInSeconds := Int.tdiv timeout 1000000000
  if n.port = internalPort ∧ n.extport > 0 then
    let c := clientAddPortMapping gw w ⟨protocol, n.port, n.extport, timeoutInSeconds⟩
    match c.1 with
    | none => ⟨n.extport, none, n, c.2⟩
    | some e =>
      addLoop gw rand protocol timeoutInSeconds 3 { n with port := internalPort } c.2 (some e)
  else
    addLoop gw rand protocol timeoutInSeconds 3 { n with port := internalPort } w none

/-- The method `natpmpNAT.DeletePortMapping`: the returned error is always `nil`. -/
def DeletePortMapping (gw : Gateway) (n : natpmpNAT) (w : World)
    (protocol : String) (internalPort : Int) : Option Err × natpmpNAT × World :=
  let c := clientAddPortMapping gw w ⟨protocol, internalPort, n.extport, 0⟩
  (none, n, c.2)

/-- The method `natpmpNAT.GetDeviceAddress`. -/
def GetDeviceAddress (n : natpmpNAT) : (IP × Option Err) × natpmpNAT :=
  ((n.gateway, none), n)

/-- The method `natpmpNAT.Type`. -/
def Type_ (n : natpmpNAT) : String × natpmpNAT :=
  ("NAT-PMP", n)

/-- The exchanges added to the log between world `w` and the later world `w2`. -/
def sent (w w2 : World) : List Exchange :=
  w2.log.drop w.log.length

/-- The number of renewal requests of a call: one when the renewal guard
`n.port == internalPort && n.extport > 0` holds, none otherwise. -/
def renewals (n : natpmpNAT) (internalPort : Int) : Nat :=
  if n.port = internalPort ∧ n.extport > 0 then 1 else 0

/-- The address `net.IPv4(a, b, c, d)`, in its 16-byte form. -/
def IPv4 (a b c d : Nat) : IP :=
  [0, 0, 0, 0, 0, 0, 0, 0, 0, 0, 255, 255, a, b, c, d]

/-- The method `natpmpNAT.GetExternalAddress`; `res` is what `n.c.GetExternalAddress()`
returned, the four bytes of `ExternalIPAddress` or an error. -/
def GetExternalAddress (n : natpmpNAT) (res : Except Err (Nat × Nat × Nat × Nat)) :
    Except Err IP × natpmpNAT :=
  match res with
  | .error err => (.error err, n)
  | .ok d => (.ok (IPv4 d.1 d.2.1 d.2.2.1 d.2.2.2), n)

/-! ## Sequences of calls on one session -/

/-- A call that sends mapping requests. -/
inductive Call where
  | add (protocol : String) (internalPort : Int) (description : String) (timeout : Int)
  | delete (protocol : String) (internalPort : Int)
deriving DecidableEq, Repr

/-- One call on the session, keeping the session and the world after it. -/
def step (gw : Gateway) (rand : Nat → Int) (s : natpmpNAT × World) : Call → natpmpNAT × World
  | .add protocol internalPort description timeout =>
    let r := AddPortMapping gw rand s.1 s.2 protocol internalPort description timeout
    (r.n, r.w)
  | .delete protocol internalPort =>
    let r := DeletePortMapping gw s.1 s.2 protocol internalPort
    (r.2.1, r.2.2)

/-- A finite sequence of calls, in order. -/
def run (gw : Gateway) (rand : Nat → Int) (s : natpmpNAT × World) (cs : List Call) :
    natpmpNAT × World :=
  cs.foldl (step gw rand) s

/-- The pairing invariant: a positive recorded external port was accepted by the gateway, in
some exchange of the log, for the recorded internal port. -/
def Paired (n : natpmpNAT) (log : List Exchange) : Prop :=
  n.extport > 0 →
    ∃ x ∈ log, x.resp = none ∧ x.req.internalPort = n.port ∧ x.req.externalPort = n.extport

/-! ## `GetInternalAddress`

`net.Interfaces`, `Interface.Addrs` and `IPNet.Contains` belong to the Go library and
`ErrNoInternalAddress` is declared outside `natpmp.go`: the enumeration results are inputs,
the containment test and the error value are parameters. -/

/-- A network `net.IPNet`: a local address and the mask of its subnet. -/
structure IPNet where
  IP : NatPMP.IP
  Mask : List Nat
deriving DecidableEq, Repr

/-- An interface address `net.Addr`: a `*net.IPNet` or any other implementation. -/
inductive Addr where
  | ipnet (x : IPNet)
  | other (network : String) (text : String)
deriving DecidableEq, Repr

/-- A network interface with what its `Addrs()` returns. -/
structure Interface where
  Name : String
  Addrs : Except Err (List Addr)

/-- The inner loop `for _, addr := range addrs`: the address of the first `*net.IPNet`
that contains the gateway, if the loop returns. -/
def scanAddrs (contains : IPNet → IP → Bool) (gateway : IP) : List Addr → Option IP
  | [] => none
  | .ipnet x :: rest => if contains x gateway then some x.IP else scanAddrs contains gateway rest
  | .other _ _ :: rest => scanAddrs contains gateway rest

/-- The outer loop `for _, iface := range ifaces`, followed by
`return nil, ErrNoInternalAddress`. -/
def scanIfaces (contains : IPNet → IP → Bool) (ErrNoInternalAddress : Err) (gateway : IP) :
    List Interface → Except Err IP
  | [] => .error ErrNoInternalAddress
  | iface :: rest =>
    match iface.Addrs with
    | .error err => .error err
    | .ok addrs =>
      match scanAddrs contains gateway addrs with
      | some ip => .ok ip
      | none => scanIfaces contains ErrNoInternalAddress gateway rest

/-- The method `natpmpNAT.GetInternalAddress`; `ifaces` is what `net.Interfaces()` returned. -/
def GetInternalAddress (contains : IPNet → IP → Bool) (ErrNoInternalAddress : Err)
    (n : natpmpNAT) (ifaces : Except Err (List Interface)) : Except Err IP :=
  match ifaces with
  | .error err => .error err
  | .ok l => scanIfaces contains ErrNoInternalAddress n.gateway l

/-- An enumeration that raises no error: each interface is given by its name and its
addresses. -/
def enumerated (ifs : List (String × List Addr)) : Except Err (List Interface) :=
  .ok (ifs.map fun i => ⟨i.1, .ok i.2⟩)

/-- The `(local address, subnet)` entries of an enumeration, in enumeration order. -/
def entries (ifs : List (String × List Addr)) : List IPNet :=
  (ifs.map Prod.snd).flatten.filterMap fun a =>
    match a with
    | .ipnet x => some x
    | .other _ _ => none

/-! ## Discovery

A run of discovery is described by its outcome: what `getDefaultGateway` returned, what the
probe `client.GetExternalAddress()` returned, and which case of the `select` fired.  A
channel is described by what a receiver can ever get from it. -/

/-- A created channel at the end of the run: the values sent on it, in order, and whether it
was closed. -/
structure Chan (α : Type) where
  buf : List α
  closed : Bool
deriving DecidableEq, Repr

/-- The client handle `*natpmp.Client` built by `natpmp.NewClient(ip)`. -/
structure Client where
  gateway : IP
deriving DecidableEq, Repr

/-- The case of the `select` statement that fires. -/
inductive Select where
  | recv
  | done
deriving DecidableEq, Repr

/-- The function `discoverNATPMPWithAddr`. -/
def discoverNATPMPWithAddr (ip : IP) (probe : Except Err (Nat × Nat × Nat × Nat)) :
    Chan Client :=
  let client : Client := ⟨ip⟩
  match probe with
  | .error _ => ⟨[], true⟩
  | .ok _ => ⟨[client], true⟩

/-- The function `discoverNATPMP`; the result is `none` for the `nil` channel. -/
def discoverNATPMP (getDefaultGateway : Except Err IP)
    (probe : Except Err (Nat × Nat × Nat × Nat)) (sel : Select) : Option (Chan natpmpNAT) :=
  match getDefaultGateway with
  | .error _ => none
  | .ok ip =>
    match sel with
    | .recv =>
      match (discoverNATPMPWithAddr ip probe).buf with
      | _ :: _ => some ⟨[⟨ip, 0, 0⟩], true⟩
      | [] => some ⟨[], true⟩
    | .done => some ⟨[], true⟩

/-- Whether a receiver waiting on the returned channel ever sees it closed: a `nil` channel
is never closed, and receiving from it blocks for ever. -/
def observesCompletion {α : Type} : Option (Chan α) → Bool
  | none => false
  | some c => c.closed

/-! ## Sample gateways and sessions -/

/-- A simulated gateway that refuses the first `k` requests it ever receives and accepts
every later one. -/
def gwRejectFirst (k : Nat) : Gateway :=
  fun h _ => if h.length < k then some "refused" else none

/-- A simulated gateway that refuses every request. -/
def gwRejectAll : Gateway :=
  fun _ _ => some "refused"

/-- A simulated gateway that accepts exactly the requests for internal port `p`. -/
def gwOnlyPort (p : Int) : Gateway :=
  fun _ r => if r.internalPort = p then none else some "refused"

/-- A stream of candidates: `10000, 10001, ...`. -/
def candidates : Nat → Int :=
  fun k => 10000 + k

/-- A session as built by discovery: both recorded ports are `0`. -/
def freshSession : natpmpNAT :=
  ⟨[192, 168, 1, 1], 0, 0⟩

/-- A session that recorded the pair internal port `80`, external port `10000`. -/
def mappedSession : natpmpNAT :=
  ⟨[192, 168, 1, 1], 10000, 80⟩

/-- The world before anything was sent or drawn. -/
def emptyWorld : World :=
  ⟨[], 0⟩

/-! ## The retry loop -/

theorem sent_of_log (w w2 : World) (t : List Exchange) (h : w2.log = w.log ++ t) :
    sent w w2 = t := by
  simp [sent, h]

/-- The loop run with `k` iterations left appends a list `t` of at most `k` exchanges to the
log, one candidate drawn per exchange; every exchange but the last one was refused; either the
last one was accepted and its port is returned and recorded, or all `k` were refused, the
session is untouched and the error of the last one is returned. -/
theorem addLoop_spec (gw : Gateway) (rand : Nat → Int) (protocol : String) (tis : Int) :
    ∀ (k : Nat) (n : natpmpNAT) (w : World) (err0 : Option Err),
    ∃ t : List Exchange,
      (addLoop gw rand protocol tis k n w err0).w = ⟨w.log ++ t, w.draws + t.length⟩ ∧
      (addLoop gw rand protocol tis k n w err0).n.port = n.port ∧
      (addLoop gw rand protocol tis k n w err0).n.gateway = n.gateway ∧
      t.length ≤ k ∧
      (∀ (i : Nat) (x : Exchange), t[i]? = some x →
        x.req = ⟨protocol, n.port, rand (w.draws + i), tis⟩ ∧
        x.resp = gw (w.log ++ t.take i) x.req ∧
        (i + 1 < t.length → x.resp ≠ none)) ∧
      (((addLoop gw rand protocol tis k n w err0).err = none ∧
        (addLoop gw rand protocol tis k n w err0).n.extport
          = (addLoop gw rand protocol tis k n w err0).port ∧
        ∃ x : Exchange, t[t.length - 1]? = some x ∧ x.resp = none ∧
          (addLoop gw rand protocol tis k n w err0).port = x.req.externalPort) ∨
       (t.length = k ∧
        (addLoop gw rand protocol tis k n w err0).port = 0 ∧
        (addLoop gw rand protocol tis k n w err0).n = n ∧
        (∀ (i : Nat) (x : Exchange), t[i]? = some x → x.resp ≠ none) ∧
        (∀ x : Exchange, t[t.length - 1]? = some x →
          (addLoop gw rand protocol tis k n w err0).err = x.resp) ∧
        (k = 0 → (addLoop gw rand protocol tis k n w err0).err = err0))) := by
  intro k
  induction k with
  | zero =>
    intro n w err0
    refine ⟨[], ?_⟩
    simp [addLoop]
  | succ k ih =>
    intro n w err0
    cases hg : gw w.log ⟨protocol, n.port, rand w.draws, tis⟩ with
    | none =>
      refine ⟨[⟨⟨protocol, n.port, rand w.draws, tis⟩, none⟩], ?_⟩
      simp only [addLoop, clientAddPortMapping, randomPort, hg]
      refine ⟨by simp, by simp, by simp, by simp, ?_, Or.inl (by simp)⟩
      intro i x hx
      cases i with
      | zero =>
        simp at hx
        subst hx
        simp [hg]
      | succ j => simp at hx
    | some e =>
      obtain ⟨t, hw, hp, hgw, hlen, hreq, hout⟩ :=
        ih n ⟨w.log ++ [⟨⟨protocol, n.port, rand w.draws, tis⟩, some e⟩], w.draws + 1⟩ (some e)
      have hstep : addLoop gw rand protocol tis (k + 1) n w err0
          = addLoop gw rand protocol tis k n
              ⟨w.log ++ [⟨⟨protocol, n.port, rand w.draws, tis⟩, some e⟩], w.draws + 1⟩
              (some e) := by
        simp only [addLoop, clientAddPortMapping, randomPort, hg]
      rw [hstep]
      dsimp only at hw hreq
      refine ⟨⟨⟨protocol, n.port, rand w.draws, tis⟩, some e⟩ :: t, ?_, hp, hgw, ?_, ?_, ?_⟩
      · rw [hw]
        simp [Nat.add_assoc, Nat.add_comm 1]
      · simpa using hlen
      · intro i x hx
        cases i with
        | zero =>
          simp at hx
          subst hx
          simp [hg]
        | succ j =>
          simp only [List.getElem?_cons_succ] at hx
          obtain ⟨h1, h2, h3⟩ := hreq j x hx
          refine ⟨?_, ?_, ?_⟩
          · rw [h1, Nat.add_assoc, Nat.add_comm 1 j]
          · rw [h2]
            simp
          · intro hlt
            exact h3 (by simpa using hlt)
      · have hpos : 0 < k → 0 < t.length := by
          intro hk
          rcases hout with ⟨_, _, x, hx, _⟩ | ⟨hl, _⟩
          · by_contra h0
            have : t = [] := by
              cases t with
              | nil => rfl
              | cons a b => simp at h0
            subst this
            simp at hx
          · omega
        rcases hout with ⟨h1, h2, x, hx, h3, h4⟩ | ⟨h1, h2, h3, h4, h5, h6⟩
        · refine Or.inl ⟨h1, h2, x, ?_, h3, h4⟩
          cases t with
          | nil => simp at hx
          | cons a b => simpa using hx
        · refine Or.inr ⟨by simp [h1], h2, h3, ?_, ?_, by simp⟩
          · intro i x hx
            cases i with
            | zero =>
              simp at hx
              subst hx
              simp
            | succ j =>
              simp only [List.getElem?_cons_succ] at hx
              exact h4 j x hx
          · intro x hx
            cases t with
            | nil =>
              simp at hx
              subst hx
              simp at h1
              exact h6 h1.symm
            | cons a b =>
              apply h5
              simpa using hx

/-! ## The whole call -/

/-- One call of `AddPortMapping` appends a list `t` of exchanges to the log: first the renewal
request when the guard holds, then one request per candidate drawn.  Every exchange but the last
was refused.  Either the last one was accepted, its port is returned and the pair
`(internalPort, port)` is recorded; or `3` candidates were refused, `0` and the
last error are returned and only the internal port is recorded. -/
theorem AddPortMapping_spec (gw : Gateway) (rand : Nat → Int) (n : natpmpNAT) (w : World)
    (protocol : String) (internalPort : Int) (description : String) (timeout : Int) :
    ∃ t : List Exchange,
      (AddPortMapping gw rand n w protocol internalPort description timeout).w
        = ⟨w.log ++ t, w.draws + (t.length - renewals n internalPort)⟩ ∧
      renewals n internalPort ≤ t.length ∧
      t.length ≤ 3 + renewals n internalPort ∧
      (renewals n internalPort = 1 → ∃ x : Exchange, t[0]? = some x ∧
        x.req = ⟨protocol, n.port, n.extport, Int.tdiv timeout 1000000000⟩ ∧
        x.resp = gw w.log x.req) ∧
      (∀ (i : Nat) (x : Exchange), t[i + renewals n internalPort]? = some x →
        x.req = ⟨protocol, internalPort, rand (w.draws + i), Int.tdiv timeout 1000000000⟩ ∧
        x.resp = gw (w.log ++ t.take (i + renewals n internalPort)) x.req) ∧
      (∀ (i : Nat) (x : Exchange), t[i]? = some x → i + 1 < t.length → x.resp ≠ none) ∧
      (((AddPortMapping gw rand n w protocol internalPort description timeout).err = none ∧
        (AddPortMapping gw rand n w protocol internalPort description timeout).n
          = { n with port := internalPort,
                     extport := (AddPortMapping gw rand n w protocol internalPort
                        description timeout).port } ∧
        ∃ x : Exchange, t[t.length - 1]? = some x ∧ x.resp = none ∧
          (AddPortMapping gw rand n w protocol internalPort description timeout).port
            = x.req.externalPort) ∨
       (t.length = 3 + renewals n internalPort ∧
        (AddPortMapping gw rand n w protocol internalPort description timeout).port = 0 ∧
        (AddPortMapping gw rand n w protocol internalPort description timeout).n
          = { n with port := internalPort } ∧
        (∀ (i : Nat) (x : Exchange), t[i]? = some x → x.resp ≠ none) ∧
        ∃ (x : Exchange) (e : Err), t[t.length - 1]? = some x ∧ x.resp = some e ∧
          (AddPortMapping gw rand n w protocol internalPort description timeout).err
            = some e)) := by
  by_cases hc : n.port = internalPort ∧ n.extport > 0
  · have hr : renewals n internalPort = 1 := by simp [renewals, hc]
    rw [hr]
    cases hg : gw w.log ⟨protocol, n.port, n.extport, Int.tdiv timeout 1000000000⟩ with
    | none =>
      have hA : AddPortMapping gw rand n w protocol internalPort description timeout
          = ⟨n.extport, none, n,
              ⟨w.log ++ [⟨⟨protocol, n.port, n.extport, Int.tdiv timeout 1000000000⟩, none⟩],
                w.draws⟩⟩ := by
        simp only [AddPortMapping, if_pos hc, clientAddPortMapping, hg]
      rw [hA]
      refine ⟨[⟨⟨protocol, n.port, n.extport, Int.tdiv timeout 1000000000⟩, none⟩],
        by simp, by simp, by simp, ?_, ?_, ?_, Or.inl ?_⟩
      · intro _
        exact ⟨⟨⟨protocol, n.port, n.extport, Int.tdiv timeout 1000000000⟩, none⟩,
          by simp, rfl, hg.symm⟩
      · intro i x hx
        simp at hx
      · intro i x hx hlt
        simp at hlt
      · refine ⟨rfl, ?_, _, rfl, rfl, rfl⟩
        cases n
        simp at hc ⊢
        exact hc.1
    | some e =>
      obtain ⟨t, hw, hp, hgw, hlen, hreq, hout⟩ :=
        addLoop_spec gw rand protocol (Int.tdiv timeout 1000000000) 3
          { n with port := internalPort }
          ⟨w.log ++ [⟨⟨protocol, n.port, n.extport, Int.tdiv timeout 1000000000⟩, some e⟩],
            w.draws⟩ (some e)
      have hA : AddPortMapping gw rand n w protocol internalPort description timeout
          = addLoop gw rand protocol (Int.tdiv timeout 1000000000) 3
              { n with port := internalPort }
              ⟨w.log ++ [⟨⟨protocol, n.port, n.extport, Int.tdiv timeout 1000000000⟩, some e⟩],
                w.draws⟩ (some e) := by
        simp only [AddPortMapping, if_pos hc, clientAddPortMapping, hg]
      rw [hA]
      dsimp only at hw hreq hp hgw
      refine ⟨⟨⟨protocol, n.port, n.extport, Int.tdiv timeout 1000000000⟩, some e⟩ :: t,
        ?_, by simp, by simpa using hlen, ?_, ?_, ?_, ?_⟩
      · rw [hw]
        simp
      · intro _
        exact ⟨⟨⟨protocol, n.port, n.extport, Int.tdiv timeout 1000000000⟩, some e⟩,
          by simp, rfl, hg.symm⟩
      · intro i x hx
        simp only [List.getElem?_cons_succ] at hx
        obtain ⟨h1, h2, _⟩ := hreq i x hx
        refine ⟨h1, ?_⟩
        rw [h2]
        simp
      · intro i x hx hlt
        cases i with
        | zero =>
          simp at hx
          subst hx
          simp
        | succ j =>
          simp only [List.getElem?_cons_succ] at hx
          exact (hreq j x hx).2.2 (by simpa using hlt)
      · rcases hout with ⟨h1, h2, x, hx, h3, h4⟩ | ⟨h1, h2, h3, h4, h5, _⟩
        · refine Or.inl ⟨h1, ?_, x, ?_, h3, h4⟩
          · rw [← h2]
            generalize addLoop gw rand protocol (Int.tdiv timeout 1000000000) 3 _ _ _ = r
              at hp hgw
            cases r with
            | mk rp re rn rw =>
              cases rn
              simp at hp hgw ⊢
              exact ⟨hgw, hp⟩
          · cases t with
            | nil => simp at hx
            | cons a b => simpa using hx
        · refine Or.inr ⟨by simp [h1, Nat.add_comm], h2, h3, ?_, ?_⟩
          · intro i x hx
            cases i with
            | zero =>
              simp at hx
              subst hx
              simp
            | succ j =>
              simp only [List.getElem?_cons_succ] at hx
              exact h4 j x hx
          · have hlast : ∃ x : Exchange, t[t.length - 1]? = some x := by
              have : t.length - 1 < t.length := by omega
              exact ⟨t[t.length - 1], List.getElem?_eq_getElem this⟩
            obtain ⟨x, hx⟩ := hlast
            have hne := h4 _ x hx
            obtain ⟨e2, he2⟩ := Option.ne_none_iff_exists'.mp hne
            refine ⟨x, e2, ?_, he2, ?_⟩
            · cases t with
              | nil => simp at h1
              | cons a b => simpa using hx
            · rw [h5 x hx, he2]
  · have hr : renewals n internalPort = 0 := by simp [renewals, hc]
    rw [hr]
    obtain ⟨t, hw, hp, hgw, hlen, hreq, hout⟩ :=
      addLoop_spec gw rand protocol (Int.tdiv timeout 1000000000) 3
        { n with port := internalPort } w none
    have hA : AddPortMapping gw rand n w protocol internalPort description timeout
        = addLoop gw rand protocol (Int.tdiv timeout 1000000000) 3
            { n with port := internalPort } w none := by
      simp only [AddPortMapping, if_neg hc]
    rw [hA]
    dsimp only at hw hreq hp hgw
    refine ⟨t, by simpa using hw, by simp, by simpa using hlen, by simp, ?_, ?_, ?_⟩
    · intro i x hx
      obtain ⟨h1, h2, _⟩ := hreq i x hx
      exact ⟨h1, h2⟩
    · intro i x hx hlt
      exact (hreq i x hx).2.2 hlt
    · rcases hout with ⟨h1, h2, x, hx, h3, h4⟩ | ⟨h1, h2, h3, h4, h5, _⟩
      · refine Or.inl ⟨h1, ?_, x, hx, h3, h4⟩
        rw [← h2]
        generalize addLoop gw rand protocol (Int.tdiv timeout 1000000000) 3 _ _ _ = r
          at hp hgw
        cases r with
        | mk rp re rn rw =>
          cases rn
          simp at hp hgw ⊢
          exact ⟨hgw, hp⟩
      · refine Or.inr ⟨by simp [h1], h2, h3, h4, ?_⟩
        have hlast : ∃ x : Exchange, t[t.length - 1]? = some x := by
          have : t.length - 1 < t.length := by omega
          exact ⟨t[t.length - 1], List.getElem?_eq_getElem this⟩
        obtain ⟨x, hx⟩ := hlast
        have hne := h4 _ x hx
        obtain ⟨e2, he2⟩ := Option.ne_none_iff_exists'.mp hne
        exact ⟨x, e2, hx, he2, by rw [h5 x hx, he2]⟩

/-- Every successful call establishes the pairing invariant, whatever the session recorded
before: the accepted request is for the recorded internal port and the recorded external
port. -/
theorem Paired_of_success (gw : Gateway) (rand : Nat → Int) (n : natpmpNAT) (w : World)
    (protocol : String) (internalPort : Int) (description : String) (timeout : Int)
    (hok : (AddPortMapping gw rand n w protocol internalPort description timeout).err = none) :
    Paired (AddPortMapping gw rand n w protocol internalPort description timeout).n
      (AddPortMapping gw rand n w protocol internalPort description timeout).w.log := by
  obtain ⟨t, hw, hlo, hhi, hren, hreq, _, hout⟩ :=
    AddPortMapping_spec gw rand n w protocol internalPort description timeout
  rcases hout with ⟨_, h2, x, hx, h3, h4⟩ | ⟨_, _, _, _, x, e, _, _, h5⟩
  · intro _
    refine ⟨x, ?_, h3, ?_, ?_⟩
    · rw [hw]
      exact List.mem_append_right _ (List.getElem?_mem hx)
    · rw [h2]
      by_cases hlt : t.length - 1 < renewals n internalPort
      · have hr : renewals n internalPort = 1 := by
          unfold renewals at hlt ⊢
          split_ifs at hlt ⊢ <;> simp at hlt ⊢
        have hc : n.port = internalPort ∧ n.extport > 0 := by
          by_contra hc
          simp [renewals, hc] at hr
        obtain ⟨y, hy, hyr, _⟩ := hren hr
        have h0 : t.length - 1 = 0 := by omega
        rw [h0, hy] at hx
        have hxy : y = x := by simpa using hx
        rw [← hxy, hyr]
        exact hc.1
      · have hidx : t.length - 1 = (t.length - 1 - renewals n internalPort)
            + renewals n internalPort := by omega
        rw [hidx] at hx
        rw [(hreq _ x hx).1]
    · rw [h2]
      exact h4.symm
  · rw [h5] at hok
    exact absurd hok (by simp)

/-! ## Claims about `AddPortMapping` -/

/-- C1: for every session, world, protocol, internal port, timeout and every `N ≤ 2`, if the
gateway refuses the first `N` mapping requests sent during the call and accepts the next one,
the call succeeds, sends exactly `N + 1` mapping requests, and returns the external port carried
by the accepted request.  The hypotheses do not assume that `N + 1` requests are sent: they
say that whichever of the first `N` exchanges of the call exist are refusals, and that
exchange `N`, if the call gets that far, is an acceptance. -/
theorem AddPortMapping_rejects_then_accept (gw : Gateway) (rand : Nat → Int) (n : natpmpNAT)
    (w : World) (protocol : String) (internalPort : Int) (description : String)
    (timeout : Int) (N : Nat) (hN : N ≤ 2)
    (hrej : ∀ (i : Nat) (x : Exchange), i < N →
      (sent w (AddPortMapping gw rand n w protocol internalPort description timeout).w)[i]?
        = some x → x.resp ≠ none)
    (hacc : ∀ x : Exchange,
      (sent w (AddPortMapping gw rand n w protocol internalPort description timeout).w)[N]?
        = some x → x.resp = none) :
    (AddPortMapping gw rand n w protocol internalPort description timeout).err = none ∧
    (sent w (AddPortMapping gw rand n w protocol internalPort description timeout).w).length
      = N + 1 ∧
    ∃ x : Exchange,
      (sent w (AddPortMapping gw rand n w protocol internalPort description timeout).w)[N]?
        = some x ∧
      x.resp = none ∧
      (AddPortMapping gw rand n w protocol internalPort description timeout).port
        = x.req.externalPort := by
  obtain ⟨t, hw, hlo, hhi, _, _, hmid, hout⟩ :=
    AddPortMapping_spec gw rand n w protocol internalPort description timeout
  have hs : sent w (AddPortMapping gw rand n w protocol internalPort description timeout).w
      = t := sent_of_log _ _ _ (by rw [hw])
  rw [hs] at hrej hacc ⊢
  rcases hout with ⟨h1, _, x, hx, h3, h4⟩ | ⟨h1, _, _, h4, _⟩
  · have hpos : 0 < t.length := by
      by_contra h0
      have : t = [] := List.length_eq_zero.mp (by omega)
      subst this
      simp at hx
    have hNeq : t.length - 1 = N := by
      rcases Nat.lt_trichotomy (t.length - 1) N with hlt | heq | hgt
      · exact absurd h3 (hrej _ x hlt hx)
      · exact heq
      · have hN1 : N < t.length := by omega
        have hy : t[N]? = some t[N] := List.getElem?_eq_getElem hN1
        exact absurd (hacc _ hy) (hmid N _ hy (by omega))
    rw [hNeq] at hx
    exact ⟨h1, by omega, x, hx, h3, h4⟩
  · have hN1 : N < t.length := by omega
    have hy : t[N]? = some t[N] := List.getElem?_eq_getElem hN1
    exact absurd (hacc _ hy) (h4 N _ hy)

/-- Witness for C1: a gateway refusing its first two requests, a fresh session, `N = 2`. -/
theorem AddPortMapping_rejects_then_accept_witness :
    (AddPortMapping (gwRejectFirst 2) candidates freshSession emptyWorld "tcp" 80 "web"
      60000000000).err = none ∧
    (sent emptyWorld (AddPortMapping (gwRejectFirst 2) candidates freshSession emptyWorld
      "tcp" 80 "web" 60000000000).w).length = 2 + 1 ∧
    ∃ x : Exchange,
      (sent emptyWorld (AddPortMapping (gwRejectFirst 2) candidates freshSession emptyWorld
        "tcp" 80 "web" 60000000000).w)[2]? = some x ∧
      x.resp = none ∧
      (AddPortMapping (gwRejectFirst 2) candidates freshSession emptyWorld "tcp" 80 "web"
        60000000000).port = x.req.externalPort :=
  AddPortMapping_rejects_then_accept (gwRejectFirst 2) candidates freshSession emptyWorld
    "tcp" 80 "web" 60000000000 2 (by decide)
    (by
      have ht : sent emptyWorld (AddPortMapping (gwRejectFirst 2) candidates freshSession
          emptyWorld "tcp" 80 "web" 60000000000).w
          = [⟨⟨"tcp", 80, 10000, 60⟩, some "refused"⟩, ⟨⟨"tcp", 80, 10001, 60⟩, some "refused"⟩,
              ⟨⟨"tcp", 80, 10002, 60⟩, none⟩] := by rfl
      rw [ht]
      intro i x hi hx
      interval_cases i <;> simp at hx <;> subst hx <;> simp)
    (by
      have ht : sent emptyWorld (AddPortMapping (gwRejectFirst 2) candidates freshSession
          emptyWorld "tcp" 80 "web" 60000000000).w
          = [⟨⟨"tcp", 80, 10000, 60⟩, some "refused"⟩, ⟨⟨"tcp", 80, 10001, 60⟩, some "refused"⟩,
              ⟨⟨"tcp", 80, 10002, 60⟩, none⟩] := by rfl
      rw [ht]
      intro x hx
      simp at hx
      subst hx
      rfl)

/-- C2, as stated, fails: a session that recorded the pair `(80, 10000)` and is asked again for
internal port `80` sends four mapping requests, not three, to a gateway that refuses them all:
the renewal request, then three candidates. -/
theorem renewal_refused_sends_four :
    mappedSession.port = 80 ∧ mappedSession.extport = 10000 ∧
    (AddPortMapping gwRejectAll candidates mappedSession emptyWorld "tcp" 80 "web"
      60000000000).err = some "refused" ∧
    (sent emptyWorld (AddPortMapping gwRejectAll candidates mappedSession emptyWorld "tcp" 80
      "web" 60000000000).w)
      = [⟨⟨"tcp", 80, 10000, 60⟩, some "refused"⟩, ⟨⟨"tcp", 80, 10000, 60⟩, some "refused"⟩,
         ⟨⟨"tcp", 80, 10001, 60⟩, some "refused"⟩, ⟨⟨"tcp", 80, 10002, 60⟩, some "refused"⟩] ∧
    (sent emptyWorld (AddPortMapping gwRejectAll candidates mappedSession emptyWorld "tcp" 80
      "web" 60000000000).w).length ≠ 3 := by
  refine ⟨rfl, rfl, rfl, rfl, ?_⟩
  decide

/-- C2, amended: if the gateway refuses every mapping request of the call, `AddPortMapping`
fails after exactly three candidate requests, preceded by one renewal request when
`internalPort` is the recorded internal port and the recorded external port is positive: four
requests are sent in that case and three in every other. -/
theorem AddPortMapping_reject_all (gw : Gateway) (rand : Nat → Int) (n : natpmpNAT)
    (w : World) (protocol : String) (internalPort : Int) (description : String)
    (timeout : Int)
    (hall : ∀ x ∈ sent w (AddPortMapping gw rand n w protocol internalPort description
      timeout).w, x.resp ≠ none) :
    (AddPortMapping gw rand n w protocol internalPort description timeout).err ≠ none ∧
    (sent w (AddPortMapping gw rand n w protocol internalPort description timeout).w).length
      = (if n.port = internalPort ∧ n.extport > 0 then 4 else 3) ∧
    (AddPortMapping gw rand n w protocol internalPort description timeout).w.draws
      = w.draws + 3 := by
  obtain ⟨t, hw, hlo, hhi, _, _, hmid, hout⟩ :=
    AddPortMapping_spec gw rand n w protocol internalPort description timeout
  have hs : sent w (AddPortMapping gw rand n w protocol internalPort description timeout).w
      = t := sent_of_log _ _ _ (by rw [hw])
  rw [hs] at hall ⊢
  rcases hout with ⟨_, _, x, hx, h3, _⟩ | ⟨h1, _, _, _, x, e, _, _, h5⟩
  · exact absurd h3 (hall x (List.getElem?_mem hx))
  · refine ⟨by rw [h5]; simp, ?_, ?_⟩
    · rw [h1]
      unfold renewals
      split_ifs <;> rfl
    · rw [hw, h1]
      simp

/-- Witness for the amended C2: a fresh session against a gateway that refuses everything. -/
theorem AddPortMapping_reject_all_witness :
    (AddPortMapping gwRejectAll candidates freshSession emptyWorld "udp" 80 "web"
      60000000000).err ≠ none ∧
    (sent emptyWorld (AddPortMapping gwRejectAll candidates freshSession emptyWorld "udp" 80
      "web" 60000000000).w).length
      = (if freshSession.port = 80 ∧ freshSession.extport > 0 then 4 else 3) ∧
    (AddPortMapping gwRejectAll candidates freshSession emptyWorld "udp" 80 "web"
      60000000000).w.draws = emptyWorld.draws + 3 :=
  AddPortMapping_reject_all gwRejectAll candidates freshSession emptyWorld "udp" 80 "web"
    60000000000
    (by
      have ht : sent emptyWorld (AddPortMapping gwRejectAll candidates freshSession
          emptyWorld "udp" 80 "web" 60000000000).w
          = [⟨⟨"udp", 80, 10000, 60⟩, some "refused"⟩, ⟨⟨"udp", 80, 10001, 60⟩, some "refused"⟩,
              ⟨⟨"udp", 80, 10002, 60⟩, some "refused"⟩] := by rfl
      rw [ht]
      intro x hx
      simp at hx
      rcases hx with h | h | h <;> subst h <;> simp)

/-- C7: whenever `AddPortMapping` returns an error, the returned port is `0`, the error is the
one the gateway gave for the last mapping request sent in the call, and the recorded external
port is the one recorded before the call. -/
theorem AddPortMapping_failure (gw : Gateway) (rand : Nat → Int) (n : natpmpNAT)
    (w : World) (protocol : String) (internalPort : Int) (description : String)
    (timeout : Int) (e : Err)
    (herr : (AddPortMapping gw rand n w protocol internalPort description timeout).err
      = some e) :
    (AddPortMapping gw rand n w protocol internalPort description timeout).port = 0 ∧
    (∃ x : Exchange,
      (sent w (AddPortMapping gw rand n w protocol internalPort description
        timeout).w).getLast? = some x ∧
      x.resp = some e ∧
      gw (AddPortMapping gw rand n w protocol internalPort description
        timeout).w.log.dropLast x.req = some e) ∧
    (AddPortMapping gw rand n w protocol internalPort description timeout).n.extport
      = n.extport := by
  obtain ⟨t, hw, hlo, hhi, _, hreq, hmid, hout⟩ :=
    AddPortMapping_spec gw rand n w protocol internalPort description timeout
  have hs : sent w (AddPortMapping gw rand n w protocol internalPort description timeout).w
      = t := sent_of_log _ _ _ (by rw [hw])
  rw [hs]
  rcases hout with ⟨h1, _⟩ | ⟨h1, h2, h3, _, x, e2, hx, hx2, h5⟩
  · rw [h1] at herr
    exact absurd herr (by simp)
  · rw [h5] at herr
    have he : e2 = e := by simpa using herr
    subst he
    refine ⟨h2, ⟨x, ?_, hx2, ?_⟩, by rw [h3]⟩
    · rw [List.getLast?_eq_getElem?]
      exact hx
    · have hidx : t.length - 1 = (t.length - 1 - renewals n internalPort)
          + renewals n internalPort := by omega
      have hx3 := hx
      rw [hidx] at hx3
      obtain ⟨_, hresp⟩ := hreq _ x hx3
      rw [← hidx] at hresp
      rw [hw, ← hx2, hresp]
      have hne : t ≠ [] := by
        intro h0
        subst h0
        rw [List.length_nil] at h1
        omega
      simp [List.dropLast_append_of_ne_nil _ hne, List.dropLast_eq_take]

/-- Witness for C7: the mapped session asked for another internal port, everything refused. -/
theorem AddPortMapping_failure_witness :
    (AddPortMapping gwRejectAll candidates mappedSession emptyWorld "tcp" 90 "web"
      60000000000).port = 0 ∧
    (∃ x : Exchange,
      (sent emptyWorld (AddPortMapping gwRejectAll candidates mappedSession emptyWorld "tcp"
        90 "web" 60000000000).w).getLast? = some x ∧
      x.resp = some "refused" ∧
      gwRejectAll (AddPortMapping gwRejectAll candidates mappedSession emptyWorld "tcp" 90
        "web" 60000000000).w.log.dropLast x.req = some "refused") ∧
    (AddPortMapping gwRejectAll candidates mappedSession emptyWorld "tcp" 90 "web"
      60000000000).n.extport = mappedSession.extport :=
  AddPortMapping_failure gwRejectAll candidates mappedSession emptyWorld "tcp" 90 "web"
    60000000000 "refused" rfl

/-- C3, evaluated where the code breaks it: on a fresh session, which records internal port
`0`, a call for internal port `80` is refused three times and returns an error; the session
then records internal port `80`, written before the first attempt, although the call
failed. -/
theorem failed_call_records_internal_port :
    freshSession.port = 0 ∧
    (AddPortMapping gwRejectAll candidates freshSession emptyWorld "tcp" 80 "web"
      60000000000).err = some "refused" ∧
    (AddPortMapping gwRejectAll candidates freshSession emptyWorld "tcp" 80 "web"
      60000000000).n.port = 80 ∧
    (AddPortMapping gwRejectAll candidates freshSession emptyWorld "tcp" 80 "web"
      60000000000).n.port ≠ freshSession.port := by
  refine ⟨rfl, rfl, rfl, ?_⟩
  decide

/-- What a failed call does keep: the recorded external port and the gateway address are
those before the call, and the whole session is as before when `internalPort` is the
internal port already recorded. -/
theorem failed_call_frame (gw : Gateway) (rand : Nat → Int) (n : natpmpNAT)
    (w : World) (protocol : String) (internalPort : Int) (description : String)
    (timeout : Int)
    (herr : (AddPortMapping gw rand n w protocol internalPort description timeout).err
      ≠ none) :
    (AddPortMapping gw rand n w protocol internalPort description timeout).n.extport
      = n.extport ∧
    (AddPortMapping gw rand n w protocol internalPort description timeout).n.gateway
      = n.gateway ∧
    (AddPortMapping gw rand n w protocol internalPort description timeout).n.port
      = internalPort ∧
    (internalPort = n.port →
      (AddPortMapping gw rand n w protocol internalPort description timeout).n = n) := by
  obtain ⟨t, _, _, _, _, _, _, hout⟩ :=
    AddPortMapping_spec gw rand n w protocol internalPort description timeout
  rcases hout with ⟨h1, _⟩ | ⟨_, _, h3, _⟩
  · exact absurd h1 herr
  · refine ⟨by rw [h3], by rw [h3], by rw [h3], ?_⟩
    intro hp
    rw [h3, hp]

/-- The other methods never change the session, whatever the gateway answers:
`DeletePortMapping`, `GetDeviceAddress`, `GetExternalAddress` and `Type` return the session
they were given. -/
theorem accessors_frame (gw : Gateway) (n : natpmpNAT) (w : World) (protocol : String)
    (internalPort : Int) (res : Except Err (Nat × Nat × Nat × Nat)) :
    (DeletePortMapping gw n w protocol internalPort).2.1 = n ∧
    (GetDeviceAddress n).2 = n ∧
    (GetExternalAddress n res).2 = n ∧
    (Type_ n).2 = n := by
  refine ⟨rfl, rfl, ?_, rfl⟩
  cases res <;> rfl

/-- C4, evaluated where the code breaks it: on a fresh session, a call for internal port `80`
is accepted with external port `10000`; a call for internal port `90` is then refused three
times.  The session now records the pair `(90, 10000)` although the gateway never accepted
anything for internal port `90`, and the next call for `90` first asks for external port
`10000`, which was obtained for internal port `80`. -/
theorem pairing_broken_by_failed_call :
    (run (gwOnlyPort 80) candidates (freshSession, emptyWorld)
      [.add "tcp" 80 "web" 60000000000, .add "tcp" 90 "ssh" 60000000000]).1
      = ⟨[192, 168, 1, 1], 10000, 90⟩ ∧
    ¬ Paired
      (run (gwOnlyPort 80) candidates (freshSession, emptyWorld)
        [.add "tcp" 80 "web" 60000000000, .add "tcp" 90 "ssh" 60000000000]).1
      (run (gwOnlyPort 80) candidates (freshSession, emptyWorld)
        [.add "tcp" 80 "web" 60000000000, .add "tcp" 90 "ssh" 60000000000]).2.log ∧
    (sent
      (run (gwOnlyPort 80) candidates (freshSession, emptyWorld)
        [.add "tcp" 80 "web" 60000000000, .add "tcp" 90 "ssh" 60000000000]).2
      (run (gwOnlyPort 80) candidates (freshSession, emptyWorld)
        [.add "tcp" 80 "web" 60000000000, .add "tcp" 90 "ssh" 60000000000,
         .add "tcp" 90 "ssh" 60000000000]).2).head?
      = some ⟨⟨"tcp", 90, 10000, 60⟩, some "refused"⟩ := by
  have hlog : (run (gwOnlyPort 80) candidates (freshSession, emptyWorld)
      [.add "tcp" 80 "web" 60000000000, .add "tcp" 90 "ssh" 60000000000])
      = (⟨[192, 168, 1, 1], 10000, 90⟩,
         ⟨[⟨⟨"tcp", 80, 10000, 60⟩, none⟩, ⟨⟨"tcp", 90, 10001, 60⟩, some "refused"⟩,
           ⟨⟨"tcp", 90, 10002, 60⟩, some "refused"⟩,
           ⟨⟨"tcp", 90, 10003, 60⟩, some "refused"⟩], 4⟩) := by rfl
  refine ⟨by rw [hlog], ?_, by rfl⟩
  rw [hlog]
  intro hp
  obtain ⟨x, hx, h1, h2, _⟩ := hp (by decide)
  simp at hx
  rcases hx with h | h | h | h <;> subst h <;> simp at h1 h2

/-- C5: if a first `AddPortMapping` for internal port `p` succeeds and returns a positive
external port `e`, and in the call for the same `p` that follows immediately the gateway
accepts the request for `e`, then the second call returns `e`, sends exactly one mapping
request, for `(p, e)`, and leaves the pair `(p, e)` recorded. -/
theorem AddPortMapping_renewal_stable (gw : Gateway) (rand : Nat → Int) (n : natpmpNAT)
    (w : World) (p : Int) (protocol1 protocol2 description1 description2 : String)
    (timeout1 timeout2 : Int)
    (hok : (AddPortMapping gw rand n w protocol1 p description1 timeout1).err = none)
    (hpos : (AddPortMapping gw rand n w protocol1 p description1 timeout1).port > 0)
    (hacc : gw (AddPortMapping gw rand n w protocol1 p description1 timeout1).w.log
      ⟨protocol2, p, (AddPortMapping gw rand n w protocol1 p description1 timeout1).port,
        Int.tdiv timeout2 1000000000⟩ = none) :
    (AddPortMapping gw rand
      (AddPortMapping gw rand n w protocol1 p description1 timeout1).n
      (AddPortMapping gw rand n w protocol1 p description1 timeout1).w
      protocol2 p description2 timeout2).err = none ∧
    (AddPortMapping gw rand
      (AddPortMapping gw rand n w protocol1 p description1 timeout1).n
      (AddPortMapping gw rand n w protocol1 p description1 timeout1).w
      protocol2 p description2 timeout2).port
      = (AddPortMapping gw rand n w protocol1 p description1 timeout1).port ∧
    sent (AddPortMapping gw rand n w protocol1 p description1 timeout1).w
      (AddPortMapping gw rand
        (AddPortMapping gw rand n w protocol1 p description1 timeout1).n
        (AddPortMapping gw rand n w protocol1 p description1 timeout1).w
        protocol2 p description2 timeout2).w
      = [⟨⟨protocol2, p, (AddPortMapping gw rand n w protocol1 p description1 timeout1).port,
            Int.tdiv timeout2 1000000000⟩, none⟩] ∧
    (AddPortMapping gw rand
      (AddPortMapping gw rand n w protocol1 p description1 timeout1).n
      (AddPortMapping gw rand n w protocol1 p description1 timeout1).w
      protocol2 p description2 timeout2).n.port = p ∧
    (AddPortMapping gw rand
      (AddPortMapping gw rand n w protocol1 p description1 timeout1).n
      (AddPortMapping gw rand n w protocol1 p description1 timeout1).w
      protocol2 p description2 timeout2).n.extport
      = (AddPortMapping gw rand n w protocol1 p description1 timeout1).port := by
  obtain ⟨t, _, _, _, _, _, _, hout⟩ :=
    AddPortMapping_spec gw rand n w protocol1 p description1 timeout1
  rcases hout with ⟨_, h2, _⟩ | ⟨_, _, _, _, x, e, _, _, h5⟩
  · generalize AddPortMapping gw rand n w protocol1 p description1 timeout1 = r1
      at hok hpos hacc h2
    have hport : r1.n.port = p := by rw [h2]
    have hext : r1.n.extport = r1.port := by rw [h2]
    have hc : r1.n.port = p ∧ r1.n.extport > 0 := ⟨hport, by rw [hext]; exact hpos⟩
    have hacc2 : gw r1.w.log ⟨protocol2, r1.n.port, r1.n.extport,
        Int.tdiv timeout2 1000000000⟩ = none := by
      rw [hport, hext]
      exact hacc
    have hA : AddPortMapping gw rand r1.n r1.w protocol2 p description2 timeout2
        = ⟨r1.n.extport, none, r1.n,
            ⟨r1.w.log ++ [⟨⟨protocol2, r1.n.port, r1.n.extport,
              Int.tdiv timeout2 1000000000⟩, none⟩], r1.w.draws⟩⟩ := by
      simp only [AddPortMapping, if_pos hc, clientAddPortMapping, hacc2]
    rw [hA]
    refine ⟨rfl, hext, ?_, hport, hext⟩
    rw [sent_of_log _ _ _ rfl, hport, hext]
  · rw [h5] at hok
    exact absurd hok (by simp)

/-- Witness for C5: a fresh session mapped for internal port `80` by an accepting gateway,
then asked again for `80` with another protocol and timeout. -/
theorem AddPortMapping_renewal_stable_witness :
    (AddPortMapping (gwRejectFirst 0) candidates
      (AddPortMapping (gwRejectFirst 0) candidates freshSession emptyWorld "tcp" 80 "web"
        60000000000).n
      (AddPortMapping (gwRejectFirst 0) candidates freshSession emptyWorld "tcp" 80 "web"
        60000000000).w "udp" 80 "dns" 30000000000).err = none ∧
    (AddPortMapping (gwRejectFirst 0) candidates
      (AddPortMapping (gwRejectFirst 0) candidates freshSession emptyWorld "tcp" 80 "web"
        60000000000).n
      (AddPortMapping (gwRejectFirst 0) candidates freshSession emptyWorld "tcp" 80 "web"
        60000000000).w "udp" 80 "dns" 30000000000).port
      = (AddPortMapping (gwRejectFirst 0) candidates freshSession emptyWorld "tcp" 80 "web"
        60000000000).port ∧
    sent (AddPortMapping (gwRejectFirst 0) candidates freshSession emptyWorld "tcp" 80 "web"
        60000000000).w
      (AddPortMapping (gwRejectFirst 0) candidates
        (AddPortMapping (gwRejectFirst 0) candidates freshSession emptyWorld "tcp" 80 "web"
          60000000000).n
        (AddPortMapping (gwRejectFirst 0) candidates freshSession emptyWorld "tcp" 80 "web"
          60000000000).w "udp" 80 "dns" 30000000000).w
      = [⟨⟨"udp", 80,
            (AddPortMapping (gwRejectFirst 0) candidates freshSession emptyWorld "tcp" 80
              "web" 60000000000).port,
            Int.tdiv 30000000000 1000000000⟩, none⟩] ∧
    (AddPortMapping (gwRejectFirst 0) candidates
      (AddPortMapping (gwRejectFirst 0) candidates freshSession emptyWorld "tcp" 80 "web"
        60000000000).n
      (AddPortMapping (gwRejectFirst 0) candidates freshSession emptyWorld "tcp" 80 "web"
        60000000000).w "udp" 80 "dns" 30000000000).n.port = 80 ∧
    (AddPortMapping (gwRejectFirst 0) candidates
      (AddPortMapping (gwRejectFirst 0) candidates freshSession emptyWorld "tcp" 80 "web"
        60000000000).n
      (AddPortMapping (gwRejectFirst 0) candidates freshSession emptyWorld "tcp" 80 "web"
        60000000000).w "udp" 80 "dns" 30000000000).n.extport
      = (AddPortMapping (gwRejectFirst 0) candidates freshSession emptyWorld "tcp" 80 "web"
        60000000000).port :=
  AddPortMapping_renewal_stable (gwRejectFirst 0) candidates freshSession
    emptyWorld 80 "tcp" "udp" "web" "dns" 60000000000 30000000000 rfl (by decide) rfl

/-- C6: fast-path eligibility.  Every call sends at least one mapping request.  The first
request asks for the session's recorded external port, taken from the session and not drawn
(the call sends one request more than it draws candidates), if and only if `internalPort` is
the recorded internal port and the recorded external port is positive; the requests after it
then carry the candidates drawn, in order.  In every other case every request of the call
carries a freshly drawn candidate as its external port, request `k` carrying the `k`-th
candidate drawn during the call, and the call draws as many candidates as it sends
requests. -/
theorem AddPortMapping_requested_ports (gw : Gateway) (rand : Nat → Int) (n : natpmpNAT)
    (w : World) (protocol : String) (internalPort : Int) (description : String)
    (timeout : Int) :
    (∃ x : Exchange,
      (sent w (AddPortMapping gw rand n w protocol internalPort description timeout).w)[0]?
        = some x) ∧
    ((∃ x : Exchange,
        (sent w (AddPortMapping gw rand n w protocol internalPort description timeout).w)[0]?
          = some x ∧
        x.req.externalPort = n.extport ∧
        (AddPortMapping gw rand n w protocol internalPort description timeout).w.draws + 1
          = w.draws + (sent w (AddPortMapping gw rand n w protocol internalPort description
              timeout).w).length) ↔
      (n.port = internalPort ∧ n.extport > 0)) ∧
    ((n.port = internalPort ∧ n.extport > 0) →
      (∃ x : Exchange,
        (sent w (AddPortMapping gw rand n w protocol internalPort description timeout).w)[0]?
          = some x ∧
        x.req = ⟨protocol, internalPort, n.extport, Int.tdiv timeout 1000000000⟩) ∧
      ∀ (k : Nat) (x : Exchange),
        (sent w (AddPortMapping gw rand n w protocol internalPort description
          timeout).w)[k + 1]? = some x →
        x.req = ⟨protocol, internalPort, rand (w.draws + k), Int.tdiv timeout 1000000000⟩) ∧
    (¬ (n.port = internalPort ∧ n.extport > 0) →
      (AddPortMapping gw rand n w protocol internalPort description timeout).w.draws
        = w.draws + (sent w (AddPortMapping gw rand n w protocol internalPort description
            timeout).w).length ∧
      ∀ (k : Nat) (x : Exchange),
        (sent w (AddPortMapping gw rand n w protocol internalPort description
          timeout).w)[k]? = some x →
        x.req = ⟨protocol, internalPort, rand (w.draws + k), Int.tdiv timeout 1000000000⟩) ∧
    (∀ x : Exchange,
      (sent w (AddPortMapping gw rand n w protocol internalPort description timeout).w)[0]?
        = some x →
      (x.req.externalPort = n.extport ↔
        (n.port = internalPort ∧ n.extport > 0) ∨ rand w.draws = n.extport)) := by
  obtain ⟨t, hw, hlo, hhi, hren, hreq, _, hout⟩ :=
    AddPortMapping_spec gw rand n w protocol internalPort description timeout
  have hs : sent w (AddPortMapping gw rand n w protocol internalPort description timeout).w
      = t := sent_of_log _ _ _ (by rw [hw])
  rw [hs, hw]
  dsimp only
  have hpos : 0 < t.length := by
    rcases hout with ⟨_, _, x, hx, _⟩ | ⟨h1, _⟩
    · by_contra h0
      have : t = [] := List.length_eq_zero.mp (by omega)
      subst this
      simp at hx
    · omega
  by_cases hc : n.port = internalPort ∧ n.extport > 0
  · have hr : renewals n internalPort = 1 := by simp [renewals, hc]
    rw [hr] at hreq ⊢
    obtain ⟨x, hx, hxr, _⟩ := hren hr
    refine ⟨⟨x, hx⟩, ⟨fun _ => hc, fun _ => ⟨x, hx, by rw [hxr], by omega⟩⟩,
      fun _ => ⟨⟨x, hx, by rw [hxr, hc.1]⟩, fun k y hy => (hreq k y hy).1⟩,
      fun h => absurd hc h, ?_⟩
    intro y hy
    rw [hx] at hy
    have hxy : x = y := by simpa using hy
    rw [← hxy, hxr]
    simp [hc]
  · have hr : renewals n internalPort = 0 := by simp [renewals, hc]
    rw [hr] at hreq ⊢
    have hx : t[0]? = some t[0] := List.getElem?_eq_getElem hpos
    refine ⟨⟨t[0], hx⟩, ⟨?_, fun h => absurd h hc⟩, fun h => absurd h hc,
      fun _ => ⟨by omega, fun k y hy => (hreq k y hy).1⟩, ?_⟩
    · rintro ⟨_, _, _, hd⟩
      omega
    · intro y hy
      have h0 := (hreq 0 y hy).1
      rw [h0]
      simp [hc]

/-- C8: whatever the gateway answers, `DeletePortMapping` returns a nil error after sending
exactly one mapping request, for the given internal port, the recorded external port and a
lease of `0`; the session is left as it was. -/
theorem DeletePortMapping_spec (gw : Gateway) (n : natpmpNAT) (w : World)
    (protocol : String) (internalPort : Int) :
    (DeletePortMapping gw n w protocol internalPort).1 = none ∧
    sent w (DeletePortMapping gw n w protocol internalPort).2.2
      = [⟨⟨protocol, internalPort, n.extport, 0⟩,
          gw w.log ⟨protocol, internalPort, n.extport, 0⟩⟩] ∧
    (DeletePortMapping gw n w protocol internalPort).2.1 = n := by
  refine ⟨rfl, ?_, rfl⟩
  exact sent_of_log _ _ _ rfl

/-! ## `GetInternalAddress` -/

theorem scanAddrs_eq (contains : IPNet → IP → Bool) (gateway : IP) (addrs : List Addr) :
    scanAddrs contains gateway addrs
      = ((addrs.filterMap fun a =>
          match a with
          | .ipnet x => some x
          | .other _ _ => none).find? fun x => contains x gateway).map IPNet.IP := by
  induction addrs with
  | nil => rfl
  | cons a rest ih =>
    cases a with
    | ipnet x =>
      by_cases h : contains x gateway = true
      · simp [scanAddrs, h]
      · simp [scanAddrs, h, ih]
    | other _ _ => simp [scanAddrs, ih]

theorem scanIfaces_eq (contains : IPNet → IP → Bool) (noAddr : Err) (gateway : IP)
    (ifs : List (String × List Addr)) :
    scanIfaces contains noAddr gateway (ifs.map fun i => ⟨i.1, .ok i.2⟩)
      = match (entries ifs).find? fun x => contains x gateway with
        | some x => .ok x.IP
        | none => .error noAddr := by
  induction ifs with
  | nil => rfl
  | cons i rest ih =>
    simp only [List.map_cons, scanIfaces, scanAddrs_eq]
    simp only [entries, List.map_cons, List.flatten_cons, List.filterMap_append,
      List.find?_append] at ih ⊢
    cases h : (i.2.filterMap fun a =>
        match a with
        | .ipnet x => some x
        | .other _ _ => none).find? fun x => contains x gateway with
    | some x => simp
    | none => simpa using ih

/-- C9: when enumeration raises no error, `GetInternalAddress` returns, without error, the
local address of the first entry in enumeration order whose subnet contains the gateway
address, and it returns `ErrNoInternalAddress` if and only if no entry's subnet contains the
gateway address. -/
theorem GetInternalAddress_first_match (contains : IPNet → IP → Bool) (noAddr : Err)
    (n : natpmpNAT) (ifs : List (String × List Addr)) :
    (GetInternalAddress contains noAddr n (enumerated ifs)
      = match (entries ifs).find? fun x => contains x n.gateway with
        | some x => .ok x.IP
        | none => .error noAddr) ∧
    (GetInternalAddress contains noAddr n (enumerated ifs) = .error noAddr ↔
      ∀ x ∈ entries ifs, contains x n.gateway = false) := by
  have h : GetInternalAddress contains noAddr n (enumerated ifs)
      = match (entries ifs).find? fun x => contains x n.gateway with
        | some x => .ok x.IP
        | none => .error noAddr := by
    simp only [GetInternalAddress, enumerated]
    exact scanIfaces_eq contains noAddr n.gateway ifs
  refine ⟨h, ?_⟩
  rw [h]
  cases hf : (entries ifs).find? fun x => contains x n.gateway with
  | some x =>
    have hx := List.find?_some hf
    have hm := List.mem_of_find?_eq_some hf
    simp only [false_iff, reduceCtorEq]
    intro hall
    have := hall x hm
    simp [this] at hx
  | none =>
    simp only [true_iff]
    intro x hx
    have := List.find?_eq_none.mp hf x hx
    simpa using this

/-! ## Discovery -/

/-- C10, as stated, fails: when the default gateway cannot be resolved, `discoverNATPMP`
returns the `nil` channel, which is never closed, so a caller waiting on it does not observe
completion. -/
theorem discoverNATPMP_nil_channel :
    discoverNATPMP (.error "no default gateway") (.ok (203, 0, 113, 7)) .recv = none ∧
    observesCompletion
      (discoverNATPMP (.error "no default gateway") (.ok (203, 0, 113, 7)) .recv) = false := by
  exact ⟨rfl, rfl⟩

/-- C10, amended: when gateway resolution fails, `discoverNATPMP` returns the `nil` channel:
no session is delivered and the channel is never closed.  In every other outcome the returned
channel receives at most one session and is then closed, so that a caller waiting on it
observes completion; a session, bound to the resolved gateway and with both ports `0`, is
delivered exactly when the probe's case of the `select` fired and the probe succeeded, and
none when the probe failed or the cancellation case fired. -/
theorem discoverNATPMP_outcomes (probe : Except Err (Nat × Nat × Nat × Nat)) (sel : Select) :
    (∀ err : Err, discoverNATPMP (.error err) probe sel = none) ∧
    (∀ ip : IP, ∃ c : Chan natpmpNAT,
      discoverNATPMP (.ok ip) probe sel = some c ∧
      observesCompletion (discoverNATPMP (.ok ip) probe sel) = true ∧
      c.closed = true ∧
      c.buf.length ≤ 1 ∧
      (∀ s ∈ c.buf, s = ⟨ip, 0, 0⟩) ∧
      (c.buf ≠ [] ↔ sel = .recv ∧ ∃ d, probe = .ok d)) := by
  refine ⟨fun _ => rfl, fun ip => ?_⟩
  cases sel with
  | recv =>
    cases probe with
    | error e =>
      exact ⟨⟨[], true⟩, rfl, rfl, rfl, by simp, by simp, by simp⟩
    | ok d =>
      exact ⟨⟨[⟨ip, 0, 0⟩], true⟩, rfl, rfl, rfl, by simp, by simp, by simp⟩
  | done =>
    exact ⟨⟨[], true⟩, rfl, rfl, rfl, by simp, by simp, by simp⟩

end NatPMP
